import Mathlib

/-!
Verification development for the lead-detection pipeline
(scrapers/company_scraper.py, main.py, embeddings/vector_store.py,
database/supabase_client.py, notifications/notifier.py, app.py).

External network calls (LLM evaluation, embedding generation, the vector
index, the document store's low-level driver, the webhook) are modelled by
explicit outcome parameters; the control flow around them is translated
from the Python source.  Machine floats from the embedding service are
modelled as rationals; stateful storage is explicit state passing on a
`Stores` record.
-/

/-- Python exception kinds that matter for the translated control flow. -/
inductive PyExc where
  | valueError
  | apiError
  | keyError
  | nameError
  deriving DecidableEq, Repr

deriving instance DecidableEq for Except

/-- ASCII whitespace recognised by Python's `str.strip` / `\s` (the
unicode-only whitespace characters are not used by this repository). -/
def isPyWs (c : Char) : Bool :=
  c = ' ' || c = '\t' || c = '\n' || c = '\r' || c = '\x0b' || c = '\x0c'

/-- Python `str.strip()` with no argument: drop leading and trailing whitespace. -/
def pyStrip (s : String) : String :=
  ⟨((s.data.dropWhile isPyWs).reverse.dropWhile isPyWs).reverse⟩

/-- Python `str.splitlines()` on the line terminators this repository can
meet (`\n`, `\r`, `\r\n`); a trailing terminator produces no trailing
empty line, and the empty string gives an empty list. -/
def splitlinesAux : List Char → List Char → List (List Char)
  | [], acc => if acc.isEmpty then [] else [acc.reverse]
  | '\r' :: '\n' :: rest, acc => acc.reverse :: splitlinesAux rest []
  | '\r' :: rest, acc => acc.reverse :: splitlinesAux rest []
  | '\n' :: rest, acc => acc.reverse :: splitlinesAux rest []
  | c :: rest, acc => splitlinesAux rest (c :: acc)

def pySplitlines (s : String) : List String :=
  (splitlinesAux s.data []).map (fun l => ⟨l⟩)

/-- Python `str.split("  ")`: split on each non-overlapping occurrence of
two spaces, scanning left to right; always returns at least one (possibly
empty) piece.  Fuel-structured with `fuel = length` so it reduces in the
kernel. -/
def splitTwoSpacesAux : Nat → List Char → List Char → List (List Char)
  | 0, l, acc => [acc.reverse ++ l]
  | _ + 1, [], acc => [acc.reverse]
  | fuel + 1, ' ' :: ' ' :: rest, acc => acc.reverse :: splitTwoSpacesAux fuel rest []
  | fuel + 1, c :: rest, acc => splitTwoSpacesAux fuel rest (c :: acc)

def pySplitTwoSpaces (s : String) : List String :=
  (splitTwoSpacesAux s.data.length s.data []).map (fun l => ⟨l⟩)

/-- One step of `re.sub(r'http[s]?://\S+', '', text)`: at each position try
to match `http://` or `https://` followed by at least one non-whitespace
character, consume the maximal non-whitespace run on success, otherwise
keep the character and move one position right.  The list shrinks by at
least one character per step, so `fuel = l.length` makes the recursion
structural (on the fuel) and total; the zero-fuel branch is unreachable
when called through `removeUrls`. -/
def stripUrlsAux : Nat → List Char → List Char
  | 0, l => l
  | _ + 1, [] => []
  | fuel + 1, 'h' :: 't' :: 't' :: 'p' :: 's' :: ':' :: '/' :: '/' :: c :: rest =>
    if isPyWs c then
      'h' :: stripUrlsAux fuel ('t' :: 't' :: 'p' :: 's' :: ':' :: '/' :: '/' :: c :: rest)
    else
      stripUrlsAux fuel (rest.dropWhile (fun d => !isPyWs d))
  | fuel + 1, 'h' :: 't' :: 't' :: 'p' :: ':' :: '/' :: '/' :: c :: rest =>
    if isPyWs c then
      'h' :: stripUrlsAux fuel ('t' :: 't' :: 'p' :: ':' :: '/' :: '/' :: c :: rest)
    else
      stripUrlsAux fuel (rest.dropWhile (fun d => !isPyWs d))
  | fuel + 1, c :: rest => c :: stripUrlsAux fuel rest

def removeUrls (s : String) : String := ⟨stripUrlsAux s.data.length s.data⟩

/-- `re.sub(r'\s+', ' ', text)`: collapse every whitespace run to a single
space.  Fuel-structured for the same reason as `stripUrlsAux`. -/
def collapseWsAux : Nat → List Char → List Char
  | 0, l => l
  | _ + 1, [] => []
  | fuel + 1, c :: rest =>
    if isPyWs c then ' ' :: collapseWsAux fuel (rest.dropWhile isPyWs)
    else c :: collapseWsAux fuel rest

def collapseWs (s : String) : String := ⟨collapseWsAux s.data.length s.data⟩

/-- Python `str.title()` restricted to ASCII letters: the first letter of
each alphabetic run is upper-cased, the rest lower-cased. -/
def pyTitleAux : Bool → List Char → List Char
  | _, [] => []
  | prevAlpha, c :: rest =>
    if c.isAlpha then
      (if prevAlpha then c.toLower else c.toUpper) :: pyTitleAux true rest
    else c :: pyTitleAux false rest

def pyTitle (s : String) : String := ⟨pyTitleAux false s.data⟩

/-! ## config.py -/

/-- config.py line 16: OpenAI embedding dimension. -/
def VECTOR_DIMENSION : Nat := 1536

/-- config.py line 26: threshold for duplicate detection, 0.85 = 17/20
(written as a normal-form rational so that it reduces in the kernel). -/
def SIMILARITY_THRESHOLD : ℚ := ⟨17, 20, by decide, by decide⟩

/-! ## Data model -/

/-- The lead dictionary fields the pipeline reads.  Evaluation metadata
(relevance/value explanations added by `lead.update`) and wall-clock
timestamps are carried through unchanged by the source and are omitted. -/
structure Lead where
  id : String
  title : String
  url : String
  description : String
  source : String
  company : String
  deriving DecidableEq, Repr

/-- A record of the document store (`insert_lead` in
database/supabase_client.py builds it from the lead dictionary plus the
embedding; timestamp fields are wall-clock and omitted). -/
structure DocRecord where
  id : String
  title : String
  url : String
  description : String
  source : String
  company : String
  vector_embedding : List ℚ
  deriving DecidableEq, Repr

def DocRecord.toLead (r : DocRecord) : Lead :=
  ⟨r.id, r.title, r.url, r.description, r.source, r.company⟩

/-- An entry of the vector index (id, vector, metadata subset common to
both call sites of `insert_vector`). -/
structure VecEntry where
  id : String
  vector : List ℚ
  mTitle : String
  mUrl : String
  mSource : String
  mCompany : String
  deriving DecidableEq, Repr

/-- One match returned by the vector index query (`results["matches"][i]`):
an id and a similarity score. -/
structure VecMatch where
  mid : String
  score : ℚ
  deriving DecidableEq, Repr

/-- Combined storage state: document-store records, vector-index entries,
and the payloads of attempted webhook posts. -/
structure Stores where
  docs : List DocRecord
  vecs : List VecEntry
  posts : List String
  deriving DecidableEq, Repr

/-- Result of `_evaluate_article_relevance` (schema of the
`evaluate_company_relevance` tool in company_scraper.py). -/
structure RelevanceEval where
  is_relevant : Bool
  relevance_score : Int
  explanation : String
  deriving DecidableEq, Repr

/-- Result of `_evaluate_csm_value` (schema of the `evaluate_csm_value`
tool in company_scraper.py). -/
structure CsmEval where
  is_valuable : Bool
  value_type : List String
  action_items : List String
  explanation : String
  deriving DecidableEq, Repr

/-! ## embeddings/vector_store.py -/

/-- `VectorStore.generate_embedding` (lines 56-79).  `apiResult` is the
outcome of the OpenAI call (`none` models the call raising).  Empty text
raises ValueError; a dimension other than `VECTOR_DIMENSION` raises
ValueError; every exception is re-raised after logging. -/
def generate_embedding (apiResult : Option (List ℚ)) (text : String) :
    Except PyExc (List ℚ) :=
  if (pyStrip text).isEmpty then .error .valueError
  else
    match apiResult with
    | none => .error .apiError
    | some emb =>
      if emb.length = VECTOR_DIMENSION then .ok emb else .error .valueError

/-- `VectorStore.find_similar` (lines 96-110).  `queryResult` is the
outcome of the Pinecone query (`none` models the call raising); any
exception, including the ValueError on an empty vector, is caught and an
empty list returned. -/
def find_similar (queryResult : Option (List VecMatch)) (vector : List ℚ) :
    List VecMatch :=
  if vector.isEmpty then []
  else
    match queryResult with
    | none => []
    | some ms => ms

/-- `VectorStore.check_duplicate` (lines 112-130).  Generates an embedding
for the text, queries for the single nearest neighbour, and returns it iff
its score is strictly greater than the threshold; every exception
(empty text, embedding failure) is caught and `none` returned. -/
def check_duplicate (apiResult : Option (List ℚ))
    (queryResult : Option (List VecMatch)) (text : String) (threshold : ℚ) :
    Option VecMatch :=
  if (pyStrip text).isEmpty then none
  else
    match generate_embedding apiResult text with
    | .error _ => none
    | .ok emb =>
      match find_similar queryResult emb with
      | [] => none
      | m :: _ => if threshold < m.score then some m else none

def upsertVec (vecs : List VecEntry) (e : VecEntry) : List VecEntry :=
  if vecs.any (fun v => v.id == e.id) then
    vecs.map (fun v => if v.id == e.id then e else v)
  else vecs ++ [e]

/-- `VectorStore.insert_vector` (lines 81-94).  `upsertOk` is the outcome
of the Pinecone upsert; a falsy id or vector raises ValueError which is
caught, returning `false` (both call sites pass a non-empty metadata
dict literal, so the metadata falsiness check never fires). -/
def insert_vector (upsertOk : Bool) (st : Stores) (i : String)
    (vector : List ℚ) (mTitle mUrl mSource mCompany : String) : Bool × Stores :=
  if i.isEmpty || vector.isEmpty then (false, st)
  else if upsertOk then
    (true, { st with vecs := upsertVec st.vecs ⟨i, vector, mTitle, mUrl, mSource, mCompany⟩ })
  else (false, st)

/-! ## database/supabase_client.py -/

/-- The record `MongoDBManager.insert_lead` builds from the lead
dictionary and the embedding (supabase_client.py lines 51-67). -/
def mkDoc (lead : Lead) (emb : List ℚ) : DocRecord :=
  ⟨lead.id, lead.title, lead.url, lead.description, lead.source, lead.company, emb⟩

/-- `MongoDBManager.insert_lead` (lines 44-78).  The collection has a
unique index on `url` (lines 35-36), so `insert_one` raises
DuplicateKeyError when a record with the same url already exists; that
exception, and any driver failure (`dbOk = false`), is caught and `none`
is returned with the store unchanged. -/
def insert_lead (dbOk : Bool) (st : Stores) (lead : Lead) (emb : List ℚ) :
    Option DocRecord × Stores :=
  if st.docs.any (fun r => r.url == lead.url) then (none, st)
  else if dbOk then
    (some (mkDoc lead emb), { st with docs := st.docs ++ [mkDoc lead emb] })
  else (none, st)

/-- `store_lead` is defined in database/mongo_client.py, which is not
present under src/ (only its callers are).  Modelled from the spec: the
document store's `insert(record)` operation, which must enforce uniqueness
on `url` and return the stored record on success, nothing on failure —
exactly the behaviour of `MongoDBManager.insert_lead` in
database/supabase_client.py. -/
def store_lead (dbOk : Bool) (st : Stores) (lead : Lead) (emb : List ℚ) :
    Option DocRecord × Stores :=
  insert_lead dbOk st lead emb

/-- `MongoDBManager.get_lead_by_url` (lines 80-87).  `lookupOk = false`
models the driver call raising; the exception is caught and `none`
returned. -/
def get_lead_by_url (lookupOk : Bool) (st : Stores) (url : String) :
    Option DocRecord :=
  if lookupOk then st.docs.find? (fun r => r.url == url) else none

/-- `self.db.leads.delete_one({"id": lead["id"]})`: remove the first
record whose `id` matches. -/
def delete_one_by_id : List DocRecord → String → List DocRecord
  | [], _ => []
  | r :: rest, i => if r.id == i then rest else r :: delete_one_by_id rest i

/-! ## notifications/notifier.py -/

/-- Parsed `generate_csm_message` tool-call payload; a `none` field models
a required key missing from the returned JSON object. -/
structure MsgPayload where
  greeting : Option String
  main_points : Option (List String)
  action_suggestions : Option (List String)
  urgency_level : Option String
  deriving DecidableEq, Repr

/-- `LeadNotifier._generate_fallback_message` (lines 176-182): a fixed
template built only from the lead's own fields. -/
def generate_fallback_message (lead : Lead) : String :=
  "🔍 *New Lead Alert for " ++ lead.company ++ "*\n<" ++ lead.url ++ "|"
    ++ lead.title ++ ">\n\nCheck the article for potential opportunities."

def urgencyEmoji (u : String) : String :=
  if u = "high" then "🚨" else if u = "medium" then "⚡"
  else if u = "low" then "ℹ️" else "ℹ️"

/-- The message assembly of `_generate_slack_message` (lines 134-170) for
a payload that passed the required-fields check. -/
def formatSlackMessage (lead : Lead) (greeting : String)
    (points actions : List String) (urgency : String) : String :=
  String.intercalate "\n"
    ([greeting, "",
      "🔍 *New Lead Alert for " ++ lead.company ++ "*",
      "<" ++ lead.url ++ "|" ++ lead.title ++ ">", "",
      "*Why this matters:*"]
      ++ points.map (fun p => "• " ++ p)
      ++ ["", "*Suggested Actions:*"]
      ++ actions.map (fun a => "📌 " ++ a)
      ++ ["", urgencyEmoji urgency ++ " *Urgency Level:* " ++ pyTitle urgency])

/-- `LeadNotifier._generate_slack_message` (lines 65-174).  `genResult`
is the outcome of the generation call: `none` models an API error, a
missing/empty tool call, or unparsable arguments — every such path, and
any other exception, returns the fallback message.  A parsed payload
missing any of the four required fields also returns the fallback. -/
def generate_slack_message (genResult : Option MsgPayload) (lead : Lead) : String :=
  match genResult with
  | none => generate_fallback_message lead
  | some p =>
    if p.greeting.isSome ∧ p.main_points.isSome
        ∧ p.action_suggestions.isSome ∧ p.urgency_level.isSome then
      formatSlackMessage lead (p.greeting.getD "Hi CSM team!")
        (p.main_points.getD []) (p.action_suggestions.getD [])
        (p.urgency_level.getD "low")
    else generate_fallback_message lead

/-- `LeadNotifier.send_slack_notification` (lines 201-237).
`webhookStatus` is the HTTP status of the POST (`none` models the request
raising).  Disabled notifications return `false` without posting; a
non-200 status or an exception returns `false`; the list of attempted
post payloads is threaded through. -/
def send_slack_notification (slackEnabled : Bool) (genResult : Option MsgPayload)
    (webhookStatus : Option Nat) (posts : List String) (lead : Lead) :
    Bool × List String :=
  if slackEnabled then
    let message := generate_slack_message genResult lead
    let posts1 := posts ++ [message]
    match webhookStatus with
    | none => (false, posts1)
    | some code => if code = 200 then (true, posts1) else (false, posts1)
  else (false, posts)

/-- `LeadNotifier.notify` (lines 184-199): `success` starts `True` and is
conjoined with the Slack outcome only when Slack is enabled. -/
def notify (slackEnabled : Bool) (genResult : Option MsgPayload)
    (webhookStatus : Option Nat) (posts : List String) (lead : Lead) :
    Bool × List String :=
  if slackEnabled then
    send_slack_notification slackEnabled genResult webhookStatus posts lead
  else (true, posts)

/-! ## scrapers/company_scraper.py -/

/-- `CompanyScraper._clean_html_content` (lines 268-295).  BeautifulSoup
parsing, script/style removal, and `soup.get_text(separator=" ")` are an
external library call whose extracted text is `soupText`; `none` models
any exception in the body, which is caught and the original input
returned.  The subsequent transforms (per-line strip, split on two
spaces, join of the non-empty chunks, URL removal, whitespace collapse
and strip) follow the source lines 282-292. -/
def clean_html_content (soupText : Option String) (html_content : String) : String :=
  match soupText with
  | none => html_content
  | some extracted =>
    let lines := (pySplitlines extracted).map pyStrip
    let chunks := (lines.map (fun line => (pySplitTwoSpaces line).map pyStrip)).flatten
    let text0 := String.intercalate " " (chunks.filter (fun c => ¬c.isEmpty))
    let text1 := removeUrls text0
    pyStrip (collapseWs text1)

/-- `CompanyScraper._generate_clean_description` (lines 297-319).  The
cleaned text only parametrises the prompt of the generation call;
`genOutcome` is that call's outcome (`some s` = the raw message content,
which the source strips; `none` = any exception).  On exception the
source returns the ORIGINAL `content` argument (line 319), not the
cleaned text. -/
def generate_clean_description (genOutcome : Option String) (content : String) :
    String :=
  match genOutcome with
  | some summary => pyStrip summary
  | none => content

/-- One entry of the Google News feed as `_fetch_news` reads it (title
and description already `html.unescape`d). -/
structure FeedEntry where
  title : String
  description : String
  link : String
  deriving DecidableEq, Repr

/-- The per-entry body of `CompanyScraper._fetch_news` (lines 462-502):
normalize the description, apply the relevance gate with the lower
ingestion bar of 50, apply the value gate (`is_valuable` only), and build
the lead dictionary.  `newId` is the fresh uuid; `rel` and `csm` are the
evaluator outcomes (the evaluators catch their own exceptions and return
conservative defaults, so they always yield a value). -/
def fetch_news_entry (newId : String) (cleanGen : Option String)
    (rel : RelevanceEval) (csm : CsmEval) (company : String)
    (entry : FeedEntry) : Option Lead :=
  let clean_description := generate_clean_description cleanGen entry.description
  if rel.is_relevant = false ∨ rel.relevance_score < 50 then none
  else if csm.is_valuable = false then none
  else some ⟨newId, entry.title, entry.link, clean_description, "Google News", company⟩

/-- `lead_text = f"{lead['company']} {lead['title']} {lead.get('description', '')}"`. -/
def leadText (lead : Lead) : String :=
  lead.company ++ " " ++ lead.title ++ " " ++ lead.description

/-- Outcomes of the external calls made by one run of
`CompanyScraper.process_and_store_lead`. -/
structure ScrapeEnv where
  lookupOk : Bool
  leadEmbed : Option (List ℚ)
  dupEmbed : Option (List ℚ)
  dupQuery : Option (List VecMatch)
  dbOk : Bool
  upsertOk : Bool
  slackEnabled : Bool
  msgGen : Option MsgPayload
  webhookStatus : Option Nat
  deriving DecidableEq, Repr

/-- `CompanyScraper.process_and_store_lead` (lines 515-571): exact-URL
lookup, embedding generation (a raise is caught by the outer handler and
yields `False`), semantic duplicate check (which generates its own
embedding, outcome `dupEmbed`), document-store insert, vector-index
insert with compensating `delete_one` on failure, then notification
(whose outcome does not affect the return value). -/
def process_and_store_lead (env : ScrapeEnv) (st : Stores) (lead : Lead) :
    Bool × Stores :=
  match get_lead_by_url env.lookupOk st lead.url with
  | some _ => (false, st)
  | none =>
    match generate_embedding env.leadEmbed (leadText lead) with
    | .error _ => (false, st)
    | .ok emb =>
      match check_duplicate env.dupEmbed env.dupQuery (leadText lead) SIMILARITY_THRESHOLD with
      | some _ => (false, st)
      | none =>
        match store_lead env.dbOk st lead emb with
        | (none, st1) => (false, st1)
        | (some stored, st1) =>
          match insert_vector env.upsertOk st1 lead.id emb lead.title lead.url
              lead.source lead.company with
          | (false, st2) => (false, { st2 with docs := delete_one_by_id st2.docs lead.id })
          | (true, st2) =>
            let n := notify env.slackEnabled env.msgGen env.webhookStatus st2.posts
              stored.toLead
            (true, { st2 with posts := n.snd })

/-! ## main.py -/

/-- Outcomes of the external calls made by one run of
`LeadDetectionSystem.process_lead`. -/
structure MainEnv where
  dupEmbed : Option (List ℚ)
  dupQuery : Option (List VecMatch)
  relevance : RelevanceEval
  csm : CsmEval
  leadEmbed : Option (List ℚ)
  dbOk : Bool
  upsertOk : Bool
  slackEnabled : Bool
  msgGen : Option MsgPayload
  webhookStatus : Option Nat
  deriving DecidableEq, Repr

/-- `LeadDetectionSystem.process_lead` (main.py lines 32-121): semantic
duplicate check on the title, relevance gate at the final-commit bar of
70, value gate (`is_valuable` and `value_type == ["none"]`), embedding
generation (a raise is caught by the outer handler and yields `False`),
document-store insert, vector-index insert with compensating
`delete_one` on failure, then notification (whose outcome does not
affect the return value). -/
def process_lead (env : MainEnv) (st : Stores) (lead : Lead) : Bool × Stores :=
  match check_duplicate env.dupEmbed env.dupQuery lead.title SIMILARITY_THRESHOLD with
  | some _ => (false, st)
  | none =>
    if env.relevance.is_relevant = false ∨ env.relevance.relevance_score < 70 then
      (false, st)
    else if env.csm.is_valuable = false ∨ env.csm.value_type = ["none"] then
      (false, st)
    else
      match generate_embedding env.leadEmbed (leadText lead) with
      | .error _ => (false, st)
      | .ok emb =>
        match store_lead env.dbOk st lead emb with
        | (none, st1) => (false, st1)
        | (some stored, st1) =>
          match insert_vector env.upsertOk st1 lead.id emb lead.title lead.url
              lead.source lead.company with
          | (false, st2) => (false, { st2 with docs := delete_one_by_id st2.docs lead.id })
          | (true, st2) =>
            let n := notify env.slackEnabled env.msgGen env.webhookStatus st2.posts
              stored.toLead
            (true, { st2 with posts := n.snd })

/-! ## app.py -/

/-- The pending-queue scan of `check_duplicate_lead` (app.py lines
249-252): each element is the `url` field of a pending lead dictionary,
`none` modelling a dictionary without that key, whose subscript raises
KeyError. -/
def pendingScan (leadUrl : String) : List (Option String) → Except PyExc Bool
  | [] => .ok false
  | some u :: rest =>
    if u = leadUrl then .ok true else pendingScan leadUrl rest
  | none :: _ => .error .keyError

/-- `check_duplicate_lead` (app.py lines 236-257).  `dbRes` and `vecRes`
are the values of `get_lead_by_url` and `check_duplicate`, both of which
catch their own exceptions internally.  The function's own `except`
handler calls `logger.error(...)`, but app.py defines no `logger` (it
neither imports nor assigns one), so the handler raises NameError before
reaching its `return False`. -/
def check_duplicate_lead (dbRes : Option DocRecord) (vecRes : Option VecMatch)
    (pendingUrls : List (Option String)) (leadUrl : String) :
    Except PyExc Bool :=
  match dbRes with
  | some _ => .ok true
  | none =>
    match vecRes with
    | some _ => .ok true
    | none =>
      match pendingScan leadUrl pendingUrls with
      | .ok b => .ok b
      | .error _ => .error .nameError

/-! ## Cosine similarity over rational vectors -/

def dotQ : List ℚ → List ℚ → ℚ
  | [], _ => 0
  | _ :: _, [] => 0
  | a :: as, b :: bs => a * b + dotQ as bs

/-- The embeddings `u` and `v` have cosine similarity at least `t` (for
`0 ≤ t`): stated without square roots as `0 ≤ u·v` together with
`t² (u·u) (v·v) ≤ (u·v)²`, which for nonnegative `t` is equivalent to
`t ≤ (u·v) / (‖u‖ ‖v‖)`. -/
def cosGeQ (u v : List ℚ) (t : ℚ) : Prop :=
  0 ≤ dotQ u v ∧ t * t * (dotQ u u * dotQ v v) ≤ dotQ u v * dotQ u v

/-- The embeddings `u` and `v` have cosine similarity strictly below `t`
(for `0 < t`): either `u·v < 0`, or `(u·v)² < t² (u·u) (v·v)`. -/
def cosLtQ (u v : List ℚ) (t : ℚ) : Prop :=
  dotQ u v < 0 ∨ dotQ u v * dotQ u v < t * t * (dotQ u u * dotQ v v)

instance (u v : List ℚ) (t : ℚ) : Decidable (cosGeQ u v t) := by
  unfold cosGeQ; infer_instance

instance (u v : List ℚ) (t : ℚ) : Decidable (cosLtQ u v t) := by
  unfold cosLtQ; infer_instance

/-! ## Derived counting helpers -/

/-- Number of document-store records carrying a given url. -/
def countUrl (docs : List DocRecord) (u : String) : Nat :=
  (docs.filter (fun r => r.url == u)).length

/-! ## Concrete data for the similarity-threshold boundary analysis -/

/-- A well-formed embedding of the configured dimension. -/
def e1536 : List ℚ := List.replicate 1536 0

/-- Embedding of lead A; its norm is 20. -/
def embA : List ℚ := 20 :: 0 :: 0 :: 0 :: 0 :: List.replicate 1531 0

/-- Embedding of lead B; its norm is 20 and `dotQ embA embB = 340`, so the
cosine similarity between A and B is 340 / (20 * 20) = 0.85 exactly. -/
def embB : List ℚ := 17 :: 10 :: 3 :: 1 :: 1 :: List.replicate 1531 0

/-- Embedding of lead D; orthogonal to `embA` (cosine similarity 0). -/
def embD : List ℚ := 0 :: 20 :: 0 :: 0 :: 0 :: List.replicate 1531 0

def leadA : Lead :=
  ⟨"A", "Acme expands", "http://x/1", "Acme opens a new market", "Google News", "Acme"⟩

def leadB : Lead :=
  ⟨"B", "Acme expansion covered again", "http://y/2", "Acme entered a new market",
    "Google News", "Acme"⟩

def leadD : Lead :=
  ⟨"D", "Unrelated story", "http://z/3", "A different subject", "Google News", "Other"⟩

def st0 : Stores := ⟨[], [], []⟩

/-- Call outcomes for committing lead A into empty stores: the vector
index is empty, so the nearest-neighbour query returns no matches. -/
def envA : ScrapeEnv := ⟨true, some embA, some embA, some [], true, true, false, none, none⟩

/-- Call outcomes for submitting lead B while the index holds exactly
`embA`: a cosine-metric index returns its nearest stored vector with a
score equal to the cosine similarity between that vector and the query,
here exactly 17/20 = `SIMILARITY_THRESHOLD`. -/
def envB : ScrapeEnv :=
  ⟨true, some embB, some embB, some [⟨"A", SIMILARITY_THRESHOLD⟩], true, true, false,
    none, none⟩

/-- Call outcomes for submitting lead D while the index holds `embA` as
nearest neighbour: score 0 = the cosine similarity of `embD` and `embA`. -/
def envD : ScrapeEnv :=
  ⟨true, some embD, some embD, some [⟨"A", 0⟩], true, true, false, none, none⟩

def docA : DocRecord :=
  ⟨"A", "Acme expands", "http://x/1", "Acme opens a new market", "Google News", "Acme", embA⟩

def vecA : VecEntry :=
  ⟨"A", embA, "Acme expands", "http://x/1", "Google News", "Acme"⟩

def stA : Stores := ⟨[docA], [vecA], []⟩

def docB : DocRecord :=
  ⟨"B", "Acme expansion covered again", "http://y/2", "Acme entered a new market",
    "Google News", "Acme", embB⟩

def vecB : VecEntry :=
  ⟨"B", embB, "Acme expansion covered again", "http://y/2", "Google News", "Acme"⟩

def stAB : Stores := ⟨[docA, docB], [vecA, vecB], []⟩

def docD : DocRecord :=
  ⟨"D", "Unrelated story", "http://z/3", "A different subject", "Google News", "Other", embD⟩

def vecD : VecEntry :=
  ⟨"D", embD, "Unrelated story", "http://z/3", "Google News", "Other"⟩

def stAD : Stores := ⟨[docA, docD], [vecA, vecD], []⟩

/-! ## Helper lemmas -/

theorem dotQ_replicate_zero (n : Nat) (v : List ℚ) :
    dotQ (List.replicate n 0) v = 0 := by
  induction n generalizing v with
  | zero => simp [dotQ, List.replicate]
  | succ k ih =>
    cases v with
    | nil => simp [dotQ, List.replicate]
    | cons b bs => simp [dotQ, List.replicate, ih]

theorem generate_embedding_ok (emb : List ℚ) (text : String)
    (h1 : (pyStrip text).isEmpty = false) (h2 : emb.length = VECTOR_DIMENSION) :
    generate_embedding (some emb) text = .ok emb := by
  simp [generate_embedding, h1, h2]

theorem embA_length : embA.length = VECTOR_DIMENSION := by
  simp only [embA, VECTOR_DIMENSION, List.length_cons, List.length_replicate]

theorem embB_length : embB.length = VECTOR_DIMENSION := by
  simp only [embB, VECTOR_DIMENSION, List.length_cons, List.length_replicate]

theorem embD_length : embD.length = VECTOR_DIMENSION := by
  simp only [embD, VECTOR_DIMENSION, List.length_cons, List.length_replicate]

theorem e1536_length : e1536.length = VECTOR_DIMENSION := by
  simp only [e1536, VECTOR_DIMENSION, List.length_replicate]

theorem SIMILARITY_THRESHOLD_eq : SIMILARITY_THRESHOLD = 17 / 20 := by
  rw [SIMILARITY_THRESHOLD, Rat.mk'_eq_divInt, Rat.divInt_eq_div]
  norm_num

theorem dotQ_cons (a b : ℚ) (as bs : List ℚ) :
    dotQ (a :: as) (b :: bs) = a * b + dotQ as bs := rfl

theorem dotQ_embA_embB : dotQ embA embB = 340 := by
  rw [embA, embB, dotQ_cons, dotQ_cons, dotQ_cons, dotQ_cons, dotQ_cons,
    dotQ_replicate_zero]
  norm_num

theorem dotQ_embA_embA : dotQ embA embA = 400 := by
  rw [embA, dotQ_cons, dotQ_cons, dotQ_cons, dotQ_cons, dotQ_cons,
    dotQ_replicate_zero]
  norm_num

theorem dotQ_embB_embB : dotQ embB embB = 400 := by
  rw [embB, dotQ_cons, dotQ_cons, dotQ_cons, dotQ_cons, dotQ_cons,
    dotQ_replicate_zero]
  norm_num

theorem dotQ_embA_embD : dotQ embA embD = 0 := by
  rw [embA, embD, dotQ_cons, dotQ_cons, dotQ_cons, dotQ_cons, dotQ_cons,
    dotQ_replicate_zero]
  norm_num

theorem dotQ_embD_embD : dotQ embD embD = 400 := by
  rw [embD, dotQ_cons, dotQ_cons, dotQ_cons, dotQ_cons, dotQ_cons,
    dotQ_replicate_zero]
  norm_num

theorem cosGeQ_embA_embB : cosGeQ embA embB SIMILARITY_THRESHOLD := by
  unfold cosGeQ
  rw [dotQ_embA_embB, dotQ_embA_embA, dotQ_embB_embB, SIMILARITY_THRESHOLD_eq]
  norm_num

theorem cosLtQ_embA_embD : cosLtQ embA embD SIMILARITY_THRESHOLD := by
  unfold cosLtQ
  rw [dotQ_embA_embD, dotQ_embA_embA, dotQ_embD_embD, SIMILARITY_THRESHOLD_eq]
  right
  norm_num

/-- Evaluation of `check_duplicate` when the embedding call succeeds with
a well-formed vector and the index query returns `ms`. -/
theorem check_duplicate_eval (emb : List ℚ) (text : String) (ms : List VecMatch)
    (h1 : (pyStrip text).isEmpty = false) (h2 : emb.length = VECTOR_DIMENSION) :
    check_duplicate (some emb) (some ms) text SIMILARITY_THRESHOLD =
      match ms with
      | [] => none
      | m :: _ => if SIMILARITY_THRESHOLD < m.score then some m else none := by
  have hg := generate_embedding_ok emb text h1 h2
  have hne : emb.isEmpty = false := by
    cases emb with
    | nil => simp [VECTOR_DIMENSION] at h2
    | cons a as => simp
  simp only [check_duplicate, h1, Bool.false_eq_true, if_false, hg, find_similar, hne]

/-- Evaluation of a fully successful `process_and_store_lead` run: no url
conflict, embedding generated, no semantic duplicate, both inserts
succeed, Slack disabled. -/
theorem commit_ok (env : ScrapeEnv) (st : Stores) (lead : Lead) (emb : List ℚ)
    (hurl : ∀ d ∈ st.docs, d.url ≠ lead.url)
    (hgen : generate_embedding env.leadEmbed (leadText lead) = .ok emb)
    (hdup : check_duplicate env.dupEmbed env.dupQuery (leadText lead)
      SIMILARITY_THRESHOLD = none)
    (hdb : env.dbOk = true) (hup : env.upsertOk = true)
    (hid : lead.id.isEmpty = false) (hemb : emb.isEmpty = false)
    (hvec : st.vecs.any (fun v => v.id == lead.id) = false)
    (hsl : env.slackEnabled = false) :
    process_and_store_lead env st lead =
      (true,
        ⟨st.docs ++ [mkDoc lead emb],
         st.vecs ++ [⟨lead.id, emb, lead.title, lead.url, lead.source, lead.company⟩],
         st.posts⟩) := by
  have hfind : st.docs.find? (fun r => r.url == lead.url) = none := by
    rw [List.find?_eq_none]
    intro r hr
    simp [hurl r hr]
  have hlook : get_lead_by_url env.lookupOk st lead.url = none := by
    unfold get_lead_by_url
    cases env.lookupOk <;> simp [hfind]
  have hany : st.docs.any (fun r => r.url == lead.url) = false := by
    rw [List.any_eq_false]
    intro r hr
    simp [hurl r hr]
  unfold process_and_store_lead
  rw [hlook, hgen, hdup]
  unfold store_lead insert_lead
  rw [hany, hdb]
  simp only [Bool.false_eq_true, if_false, if_true]
  unfold insert_vector
  rw [hid, hemb, hup]
  simp only [Bool.or_self, Bool.false_eq_true, if_false, if_true]
  unfold upsertVec
  rw [hvec]
  simp only [Bool.false_eq_true, if_false]
  unfold notify
  rw [hsl]
  simp

theorem runA_eq : process_and_store_lead envA st0 leadA = (true, stA) := by
  have hgen : generate_embedding envA.leadEmbed (leadText leadA) = .ok embA :=
    generate_embedding_ok embA (leadText leadA) (by decide) embA_length
  have hdup : check_duplicate envA.dupEmbed envA.dupQuery (leadText leadA)
      SIMILARITY_THRESHOLD = none :=
    check_duplicate_eval embA (leadText leadA) [] (by decide) embA_length
  have h := commit_ok envA st0 leadA embA (by simp [st0]) hgen hdup rfl rfl
    (by decide) (by rw [embA]; rfl) (by simp [st0]) rfl
  simpa [st0, stA, docA, vecA, leadA, mkDoc] using h

theorem runB_eq : process_and_store_lead envB stA leadB = (true, stAB) := by
  have hgen : generate_embedding envB.leadEmbed (leadText leadB) = .ok embB :=
    generate_embedding_ok embB (leadText leadB) (by decide) embB_length
  have hdup : check_duplicate envB.dupEmbed envB.dupQuery (leadText leadB)
      SIMILARITY_THRESHOLD = none := by
    have h := check_duplicate_eval embB (leadText leadB) [⟨"A", SIMILARITY_THRESHOLD⟩]
      (by decide) embB_length
    simpa using h
  have h := commit_ok envB stA leadB embB (by decide) hgen hdup rfl rfl
    (by decide) (by rw [embB]; rfl) (by decide) rfl
  simpa [stA, stAB, docA, docB, vecA, vecB, leadB, mkDoc] using h

theorem runD_eq : process_and_store_lead envD stA leadD = (true, stAD) := by
  have hgen : generate_embedding envD.leadEmbed (leadText leadD) = .ok embD :=
    generate_embedding_ok embD (leadText leadD) (by decide) embD_length
  have hdup : check_duplicate envD.dupEmbed envD.dupQuery (leadText leadD)
      SIMILARITY_THRESHOLD = none := by
    have h := check_duplicate_eval embD (leadText leadD) [⟨"A", 0⟩]
      (by decide) embD_length
    have hlt : ¬ SIMILARITY_THRESHOLD < (0 : ℚ) := by
      rw [SIMILARITY_THRESHOLD_eq]
      norm_num
    simpa [hlt] using h
  have h := commit_ok envD stA leadD embD (by decide) hgen hdup rfl rfl
    (by decide) (by rw [embD]; rfl) (by decide) rfl
  simpa [stA, stAD, docA, docD, vecA, vecD, leadD, mkDoc] using h

theorem delete_one_by_id_append_fresh (l : List DocRecord) (r : DocRecord) (i : String)
    (h : ∀ d ∈ l, d.id ≠ i) (hr : r.id = i) :
    delete_one_by_id (l ++ [r]) i = l := by
  induction l with
  | nil => simp [delete_one_by_id, hr]
  | cons a as ih =>
    have ha : (a.id == i) = false := by
      simp [h a (by simp)]
    simp only [List.cons_append, delete_one_by_id, ha, Bool.false_eq_true, if_false]
    exact congrArg (fun t => a :: t) (ih (fun d hd => h d (by simp [hd])))

theorem delete_one_by_id_sublist (l : List DocRecord) (i : String) :
    (delete_one_by_id l i).Sublist l := by
  induction l with
  | nil => simp [delete_one_by_id]
  | cons a as ih =>
    by_cases hai : (a.id == i) = true
    · simp only [delete_one_by_id, hai, if_true]
      exact List.sublist_cons_self a as
    · simp only [delete_one_by_id, hai, Bool.false_eq_true, if_false]
      exact List.Sublist.cons₂ a ih

theorem countUrl_append (l l' : List DocRecord) (u : String) :
    countUrl (l ++ l') u = countUrl l u + countUrl l' u := by
  simp [countUrl, List.filter_append]

theorem countUrl_eq_zero (l : List DocRecord) (u : String)
    (h : l.any (fun r => r.url == u) = false) : countUrl l u = 0 := by
  rw [List.any_eq_false] at h
  rw [countUrl, List.length_eq_zero, List.filter_eq_nil_iff]
  exact h

theorem countUrl_single_le (r : DocRecord) (u : String) : countUrl [r] u ≤ 1 := by
  by_cases hr : (r.url == u) = true
  · simp [countUrl, List.filter, hr]
  · simp [countUrl, List.filter, hr]

theorem countUrl_delete_le (l : List DocRecord) (i : String) (u : String) :
    countUrl (delete_one_by_id l i) u ≤ countUrl l u :=
  List.Sublist.length_le
    (List.Sublist.filter _ (delete_one_by_id_sublist l i))

/-- Any store already holding a record with the lead's url makes
`process_and_store_lead` fail without touching the stores: either the
exact-URL lookup sees it, or (when the lookup errors and fails open, or
the semantic check passes) the unique index on `url` rejects the insert. -/
theorem resubmission_rejected (env : ScrapeEnv) (st : Stores) (lead : Lead)
    (hd : ∃ d ∈ st.docs, d.url = lead.url) :
    process_and_store_lead env st lead = (false, st) := by
  have hany : st.docs.any (fun r => r.url == lead.url) = true := by
    rw [List.any_eq_true]
    obtain ⟨d, hdm, hdu⟩ := hd
    exact ⟨d, hdm, by simp [hdu]⟩
  unfold process_and_store_lead
  cases hlk : get_lead_by_url env.lookupOk st lead.url with
  | some r => rfl
  | none =>
    cases hge : generate_embedding env.leadEmbed (leadText lead) with
    | error e => rfl
    | ok emb =>
      cases hcd : check_duplicate env.dupEmbed env.dupQuery (leadText lead)
          SIMILARITY_THRESHOLD with
      | some m => rfl
      | none =>
        unfold store_lead insert_lead
        rw [hany]
        rfl

/-- Case analysis of the document-store component after one
`process_and_store_lead` run: unchanged, one fresh record appended (only
when no record with the lead's url existed), or that same append followed
by the compensating delete. -/
theorem process_docs_cases (env : ScrapeEnv) (st : Stores) (lead : Lead) :
    (process_and_store_lead env st lead).snd.docs = st.docs
    ∨ ∃ emb, st.docs.any (fun r => r.url == lead.url) = false
        ∧ ((process_and_store_lead env st lead).snd.docs = st.docs ++ [mkDoc lead emb]
          ∨ (process_and_store_lead env st lead).snd.docs
              = delete_one_by_id (st.docs ++ [mkDoc lead emb]) lead.id) := by
  unfold process_and_store_lead
  split
  · left; rfl
  · split
    · left; rfl
    · next emb heqg =>
      split
      · left; rfl
      · split
        · next stored heq =>
          unfold store_lead insert_lead at heq
          split at heq
          · simp only [Prod.mk.injEq] at heq
            rw [← heq.2]
            left; rfl
          · split at heq
            · simp at heq
            · simp only [Prod.mk.injEq] at heq
              rw [← heq.2]
              left; rfl
        · next stored st1 heq =>
          unfold store_lead insert_lead at heq
          split at heq
          · simp at heq
          · split at heq
            · next hnotany hdb =>
              have hanyf : st.docs.any (fun r => r.url == lead.url) = false := by
                simpa using hnotany
              simp only [Prod.mk.injEq] at heq
              obtain ⟨hst, hst1⟩ := heq
              subst hst1
              right
              refine ⟨emb, hanyf, ?_⟩
              split
              · next st2 heq2 =>
                unfold insert_vector at heq2
                split at heq2
                · simp only [Prod.mk.injEq] at heq2
                  rw [← heq2.2]
                  right; rfl
                · split at heq2
                  · simp at heq2
                  · simp only [Prod.mk.injEq] at heq2
                    rw [← heq2.2]
                    right; rfl
              · next st2 heq2 =>
                unfold insert_vector at heq2
                split at heq2
                · simp at heq2
                · split at heq2
                  · simp only [Prod.mk.injEq] at heq2
                    rw [← heq2.2]
                    left; rfl
                  · simp at heq2
            · simp at heq

theorem countUrl_append_fresh_le (st : Stores) (lead : Lead) (emb : List ℚ)
    (u : String) (hany : st.docs.any (fun r => r.url == lead.url) = false)
    (h : countUrl st.docs u ≤ 1) :
    countUrl (st.docs ++ [mkDoc lead emb]) u ≤ 1 := by
  rw [countUrl_append]
  by_cases hu : lead.url = u
  · subst hu
    have h0 : countUrl st.docs lead.url = 0 := countUrl_eq_zero _ _ hany
    have h1 := countUrl_single_le (mkDoc lead emb) lead.url
    omega
  · have h1 : countUrl [mkDoc lead emb] u = 0 := by
      apply countUrl_eq_zero
      simp [mkDoc, hu]
    omega

/-- One `process_and_store_lead` step preserves "at most one record per
url" in the document store. -/
theorem countUrl_le_one_preserved (env : ScrapeEnv) (st : Stores) (lead : Lead)
    (u : String) (h : countUrl st.docs u ≤ 1) :
    countUrl (process_and_store_lead env st lead).snd.docs u ≤ 1 := by
  rcases process_docs_cases env st lead with hcase | ⟨emb, hany, hcase | hcase⟩
  · rw [hcase]; exact h
  · rw [hcase]
    exact countUrl_append_fresh_le st lead emb u hany h
  · rw [hcase]
    exact le_trans (countUrl_delete_le _ _ _)
      (countUrl_append_fresh_le st lead emb u hany h)

theorem compensation_run_scraper (env : ScrapeEnv) (st : Stores) (lead : Lead)
    (emb : List ℚ)
    (hgen : generate_embedding env.leadEmbed (leadText lead) = .ok emb)
    (hdup : check_duplicate env.dupEmbed env.dupQuery (leadText lead)
      SIMILARITY_THRESHOLD = none)
    (hdb : env.dbOk = true)
    (hurl : ∀ d ∈ st.docs, d.url ≠ lead.url)
    (hup : env.upsertOk = false)
    (hid : ∀ d ∈ st.docs, d.id ≠ lead.id) :
    process_and_store_lead env st lead = (false, st) := by
  have hfind : st.docs.find? (fun r => r.url == lead.url) = none := by
    rw [List.find?_eq_none]
    intro r hr
    simp [hurl r hr]
  have hlook : get_lead_by_url env.lookupOk st lead.url = none := by
    unfold get_lead_by_url
    cases env.lookupOk <;> simp [hfind]
  have hany : st.docs.any (fun r => r.url == lead.url) = false := by
    rw [List.any_eq_false]
    intro r hr
    simp [hurl r hr]
  unfold process_and_store_lead
  rw [hlook, hgen, hdup]
  unfold store_lead insert_lead
  rw [hany, hdb]
  simp only [Bool.false_eq_true, if_false, if_true]
  unfold insert_vector
  rw [hup]
  simp only [Bool.false_eq_true, if_false, ite_self]
  rw [delete_one_by_id_append_fresh st.docs (mkDoc lead emb) lead.id hid rfl]

theorem compensation_run_main (env : MainEnv) (st : Stores) (lead : Lead)
    (emb : List ℚ)
    (hdup : check_duplicate env.dupEmbed env.dupQuery lead.title
      SIMILARITY_THRESHOLD = none)
    (hrel : env.relevance.is_relevant = true)
    (hscore : (70 : Int) ≤ env.relevance.relevance_score)
    (hval : env.csm.is_valuable = true)
    (htype : env.csm.value_type ≠ ["none"])
    (hgen : generate_embedding env.leadEmbed (leadText lead) = .ok emb)
    (hdb : env.dbOk = true)
    (hurl : ∀ d ∈ st.docs, d.url ≠ lead.url)
    (hup : env.upsertOk = false)
    (hid : ∀ d ∈ st.docs, d.id ≠ lead.id) :
    process_lead env st lead = (false, st) := by
  have hany : st.docs.any (fun r => r.url == lead.url) = false := by
    rw [List.any_eq_false]
    intro r hr
    simp [hurl r hr]
  have hg1 : ¬(env.relevance.is_relevant = false ∨ env.relevance.relevance_score < 70) := by
    rintro (ha | hb)
    · simp [hrel] at ha
    · omega
  have hg2 : ¬(env.csm.is_valuable = false ∨ env.csm.value_type = ["none"]) := by
    rintro (ha | hb)
    · simp [hval] at ha
    · exact htype hb
  unfold process_lead
  rw [hdup, if_neg hg1, if_neg hg2, hgen]
  unfold store_lead insert_lead
  rw [hany, hdb]
  simp only [Bool.false_eq_true, if_false, if_true]
  unfold insert_vector
  rw [hup]
  simp only [Bool.false_eq_true, if_false, ite_self]
  rw [delete_one_by_id_append_fresh st.docs (mkDoc lead emb) lead.id hid rfl]

theorem relevance_gate_main (env : MainEnv) (st : Stores) (lead : Lead)
    (h : env.relevance.relevance_score < 70) :
    process_lead env st lead = (false, st) := by
  unfold process_lead
  cases hcd : check_duplicate env.dupEmbed env.dupQuery lead.title
      SIMILARITY_THRESHOLD with
  | some m => rfl
  | none => rw [if_pos (Or.inr h)]

theorem value_gate_main (env : MainEnv) (st : Stores) (lead : Lead)
    (h : env.csm.is_valuable = false) :
    process_lead env st lead = (false, st) := by
  unfold process_lead
  cases hcd : check_duplicate env.dupEmbed env.dupQuery lead.title
      SIMILARITY_THRESHOLD with
  | some m => rfl
  | none =>
    by_cases hg : env.relevance.is_relevant = false ∨ env.relevance.relevance_score < 70
    · rw [if_pos hg]
    · rw [if_neg hg, if_pos (Or.inl h)]

theorem ingestion_relevance_gate (newId : String) (cleanGen : Option String)
    (rel : RelevanceEval) (csm : CsmEval) (company : String) (entry : FeedEntry)
    (h : rel.relevance_score < 50) :
    fetch_news_entry newId cleanGen rel csm company entry = none := by
  unfold fetch_news_entry
  rw [if_pos (Or.inr h)]

theorem ingestion_value_gate (newId : String) (cleanGen : Option String)
    (rel : RelevanceEval) (csm : CsmEval) (company : String) (entry : FeedEntry)
    (h : csm.is_valuable = false) :
    fetch_news_entry newId cleanGen rel csm company entry = none := by
  unfold fetch_news_entry
  by_cases hg : rel.is_relevant = false ∨ rel.relevance_score < 50
  · rw [if_pos hg]
  · rw [if_neg hg, if_pos h]

theorem ingestion_pass (newId : String) (cleanGen : Option String)
    (rel : RelevanceEval) (csm : CsmEval) (company : String) (entry : FeedEntry)
    (h1 : rel.is_relevant = true) (h2 : (50 : Int) ≤ rel.relevance_score)
    (h3 : csm.is_valuable = true) :
    fetch_news_entry newId cleanGen rel csm company entry =
      some ⟨newId, entry.title, entry.link,
        generate_clean_description cleanGen entry.description, "Google News", company⟩ := by
  unfold fetch_news_entry
  rw [if_neg, if_neg]
  · simp [h3]
  · rintro (ha | hb)
    · simp [h1] at ha
    · omega

theorem generate_embedding_dim (apiResult : Option (List ℚ)) (text : String)
    (v : List ℚ) (h : generate_embedding apiResult text = .ok v) :
    v.length = VECTOR_DIMENSION := by
  unfold generate_embedding at h
  split at h
  · simp at h
  · split at h
    · simp at h
    · split at h
      · next hlen =>
        simp only [Except.ok.injEq] at h
        subst h
        exact hlen
      · simp at h

theorem generate_embedding_exact (a : List ℚ) (text : String) (v : List ℚ)
    (h : generate_embedding (some a) text = .ok v) : v = a := by
  unfold generate_embedding at h
  split at h
  · exact Except.noConfusion h
  · split at h
    · exact Except.noConfusion h
    · rename_i emb heq
      obtain rfl : a = emb := Option.some.inj heq
      split at h
      · exact (Except.ok.inj h).symm
      · exact Except.noConfusion h

theorem bad_embedding_error (apiResult : Option (List ℚ)) (text : String)
    (e : List ℚ) (he : apiResult = some e) (hlen : e.length ≠ VECTOR_DIMENSION) :
    ∃ err, generate_embedding apiResult text = .error err := by
  subst he
  unfold generate_embedding
  split
  · exact ⟨.valueError, rfl⟩
  · refine ⟨.valueError, ?_⟩
    simp [hlen]

theorem bad_embedding_rejected_scraper (env : ScrapeEnv) (st : Stores) (lead : Lead)
    (e : List ℚ) (he : env.leadEmbed = some e) (hlen : e.length ≠ VECTOR_DIMENSION) :
    process_and_store_lead env st lead = (false, st) := by
  obtain ⟨err, herr⟩ := bad_embedding_error env.leadEmbed (leadText lead) e he hlen
  unfold process_and_store_lead
  cases hlk : get_lead_by_url env.lookupOk st lead.url with
  | some r => rfl
  | none => rw [herr]

theorem bad_embedding_rejected_main (env : MainEnv) (st : Stores) (lead : Lead)
    (e : List ℚ) (he : env.leadEmbed = some e) (hlen : e.length ≠ VECTOR_DIMENSION) :
    process_lead env st lead = (false, st) := by
  obtain ⟨err, herr⟩ := bad_embedding_error env.leadEmbed (leadText lead) e he hlen
  unfold process_lead
  cases hcd : check_duplicate env.dupEmbed env.dupQuery lead.title
      SIMILARITY_THRESHOLD with
  | some m => rfl
  | none =>
    by_cases hg1 : env.relevance.is_relevant = false ∨ env.relevance.relevance_score < 70
    · rw [if_pos hg1]
    · rw [if_neg hg1]
      by_cases hg2 : env.csm.is_valuable = false ∨ env.csm.value_type = ["none"]
      · rw [if_pos hg2]
      · rw [if_neg hg2, herr]

theorem fallback_on_missing_field (p : MsgPayload) (lead : Lead)
    (h : p.greeting = none ∨ p.main_points = none ∨ p.action_suggestions = none
      ∨ p.urgency_level = none) :
    generate_slack_message (some p) lead = generate_fallback_message lead := by
  simp only [generate_slack_message]
  rw [if_neg]
  rintro ⟨h1, h2, h3, h4⟩
  rcases h with h | h | h | h
  · rw [h] at h1; simp at h1
  · rw [h] at h2; simp at h2
  · rw [h] at h3; simp at h3
  · rw [h] at h4; simp at h4

theorem notify_enabled_eval (genResult : Option MsgPayload) (w : Option Nat)
    (posts : List String) (lead : Lead) :
    (notify true genResult w posts lead).snd
        = posts ++ [generate_slack_message genResult lead]
    ∧ ((notify true genResult w posts lead).fst = true ↔ w = some 200) := by
  unfold notify send_slack_notification
  cases w with
  | none => simp
  | some c =>
    by_cases hc : c = 200
    · subst hc; simp
    · simp [hc]

theorem fallback_contains (lead : Lead) :
    lead.company.data <:+: (generate_fallback_message lead).data
    ∧ lead.title.data <:+: (generate_fallback_message lead).data
    ∧ lead.url.data <:+: (generate_fallback_message lead).data := by
  refine ⟨⟨"🔍 *New Lead Alert for ".data,
      ("*\n<" ++ lead.url ++ "|" ++ lead.title
        ++ ">\n\nCheck the article for potential opportunities.").data, ?_⟩,
    ⟨("🔍 *New Lead Alert for " ++ lead.company ++ "*\n<" ++ lead.url ++ "|").data,
      ">\n\nCheck the article for potential opportunities.".data, ?_⟩,
    ⟨("🔍 *New Lead Alert for " ++ lead.company ++ "*\n<").data,
      ("|" ++ lead.title ++ ">\n\nCheck the article for potential opportunities.").data, ?_⟩⟩
  all_goals
    simp [generate_fallback_message, String.data_append, List.append_assoc]

theorem check_dup_high :
    check_duplicate (some e1536) (some [⟨"A", 1⟩])
      (leadText ⟨"H", "T", "http://h/1", "d", "s", "C"⟩) SIMILARITY_THRESHOLD
      = some ⟨"A", 1⟩ := by
  have hlt : SIMILARITY_THRESHOLD < (1 : ℚ) := by
    rw [SIMILARITY_THRESHOLD_eq]
    norm_num
  exact (check_duplicate_eval e1536 (leadText ⟨"H", "T", "http://h/1", "d", "s", "C"⟩)
    [⟨"A", 1⟩] (by decide) e1536_length).trans (by simp [hlt])

/-! ## Claims -/

/-- C1: for every lead for which the document-store insert succeeds and
the subsequent vector-index insert fails, the commit operation
(`process_lead` in main.py, and `process_and_store_lead` in
company_scraper.py) deletes the just-inserted document-store record and
reports failure, so after commit returns no document-store record with
that lead's id exists. -/
theorem C1_compensating_delete :
    (∀ (env : MainEnv) (st : Stores) (lead : Lead) (emb : List ℚ),
      check_duplicate env.dupEmbed env.dupQuery lead.title SIMILARITY_THRESHOLD = none →
      env.relevance.is_relevant = true →
      (70 : Int) ≤ env.relevance.relevance_score →
      env.csm.is_valuable = true →
      env.csm.value_type ≠ ["none"] →
      generate_embedding env.leadEmbed (leadText lead) = Except.ok emb →
      env.dbOk = true →
      (∀ d ∈ st.docs, d.url ≠ lead.url) →
      env.upsertOk = false →
      (∀ d ∈ st.docs, d.id ≠ lead.id) →
      (process_lead env st lead).fst = false
        ∧ ∀ d ∈ (process_lead env st lead).snd.docs, d.id ≠ lead.id)
    ∧ (∀ (env : ScrapeEnv) (st : Stores) (lead : Lead) (emb : List ℚ),
      generate_embedding env.leadEmbed (leadText lead) = Except.ok emb →
      check_duplicate env.dupEmbed env.dupQuery (leadText lead) SIMILARITY_THRESHOLD = none →
      env.dbOk = true →
      (∀ d ∈ st.docs, d.url ≠ lead.url) →
      env.upsertOk = false →
      (∀ d ∈ st.docs, d.id ≠ lead.id) →
      (process_and_store_lead env st lead).fst = false
        ∧ ∀ d ∈ (process_and_store_lead env st lead).snd.docs, d.id ≠ lead.id) := by
  constructor
  · intro env st lead emb hdup hrel hscore hval htype hgen hdb hurl hup hid
    have heq := compensation_run_main env st lead emb hdup hrel hscore hval htype hgen
      hdb hurl hup hid
    rw [heq]
    exact ⟨rfl, hid⟩
  · intro env st lead emb hgen hdup hdb hurl hup hid
    have heq := compensation_run_scraper env st lead emb hgen hdup hdb hurl hup hid
    rw [heq]
    exact ⟨rfl, hid⟩

theorem C1_compensating_delete_witness :
    ((process_lead ⟨none, none, ⟨true, 80, "r"⟩, ⟨true, ["funding_round"], [], "v"⟩,
        some e1536, true, false, false, none, none⟩ st0 leadA).fst = false
      ∧ ∀ d ∈ (process_lead ⟨none, none, ⟨true, 80, "r"⟩,
          ⟨true, ["funding_round"], [], "v"⟩, some e1536, true, false, false, none,
          none⟩ st0 leadA).snd.docs, d.id ≠ leadA.id)
    ∧ ((process_and_store_lead ⟨true, some e1536, none, none, true, false, false,
        none, none⟩ st0 leadA).fst = false
      ∧ ∀ d ∈ (process_and_store_lead ⟨true, some e1536, none, none, true, false,
          false, none, none⟩ st0 leadA).snd.docs, d.id ≠ leadA.id) :=
  ⟨C1_compensating_delete.1 _ st0 leadA e1536 (by decide) rfl (by decide) rfl
      (by decide)
      (generate_embedding_ok e1536 (leadText leadA) (by decide) e1536_length) rfl
      (by simp [st0]) rfl (by simp [st0]),
    C1_compensating_delete.2 _ st0 leadA e1536
      (generate_embedding_ok e1536 (leadText leadA) (by decide) e1536_length)
      (by decide) rfl (by simp [st0]) rfl (by simp [st0])⟩

/-- C2 counterexample: the claim's "at least 0.85" reading is false at the
boundary.  `embA` and `embB` have cosine similarity exactly 0.85 (= the
configured threshold, shown without square roots by
`340² = (17/20)²·400·400`), a cosine-metric index therefore reports the
nearest neighbour with score 0.85, `check_duplicate` compares with strict
`>`, classifies no duplicate, and both leads get committed. -/
theorem C2_similarity_counterexample :
    cosGeQ embA embB SIMILARITY_THRESHOLD
    ∧ (process_and_store_lead envA st0 leadA).fst = true
    ∧ (process_and_store_lead envB
        (process_and_store_lead envA st0 leadA).snd leadB).fst = true
    ∧ (process_and_store_lead envB
        (process_and_store_lead envA st0 leadA).snd leadB).snd.docs.map DocRecord.id
      = ["A", "B"] := by
  refine ⟨cosGeQ_embA_embB, ?_, ?_, ?_⟩
  · rw [runA_eq]
  · rw [runA_eq, show ((true, stA) : Bool × Stores).snd = stA from rfl, runB_eq]
  · rw [runA_eq, show ((true, stA) : Bool × Stores).snd = stA from rfl, runB_eq]
    decide

/-- C2 (amended): the detector declares a duplicate iff the single
nearest neighbour's score is STRICTLY greater than the 0.85 threshold
(so a pair at similarity exactly 0.85 is not deduplicated); a lead whose
semantic check reports a duplicate is never committed and the stores are
untouched; and two leads with similarity strictly below 0.85 and
different urls may both be committed. -/
theorem C2_threshold_strict :
    (∀ (emb : List ℚ) (text : String) (m : VecMatch) (rest : List VecMatch),
      (pyStrip text).isEmpty = false → emb.length = VECTOR_DIMENSION →
      check_duplicate (some emb) (some (m :: rest)) text SIMILARITY_THRESHOLD
        = if SIMILARITY_THRESHOLD < m.score then some m else none)
    ∧ (∀ (env : ScrapeEnv) (st : Stores) (lead : Lead) (m : VecMatch),
      check_duplicate env.dupEmbed env.dupQuery (leadText lead)
        SIMILARITY_THRESHOLD = some m →
      process_and_store_lead env st lead = (false, st))
    ∧ (cosLtQ embA embD SIMILARITY_THRESHOLD
      ∧ leadA.url ≠ leadD.url
      ∧ (process_and_store_lead envA st0 leadA).fst = true
      ∧ (process_and_store_lead envD
          (process_and_store_lead envA st0 leadA).snd leadD).fst = true) := by
  refine ⟨?_, ?_, cosLtQ_embA_embD, by decide, by rw [runA_eq], ?_⟩
  · intro emb text m rest h1 h2
    exact check_duplicate_eval emb text (m :: rest) h1 h2
  · intro env st lead m hdup
    unfold process_and_store_lead
    cases hlk : get_lead_by_url env.lookupOk st lead.url with
    | some r => rfl
    | none =>
      cases hge : generate_embedding env.leadEmbed (leadText lead) with
      | error e => rfl
      | ok emb => rw [hdup]
  · rw [runA_eq, show ((true, stA) : Bool × Stores).snd = stA from rfl, runD_eq]

theorem C2_threshold_strict_witness :
    ((pyStrip "x").isEmpty = false
      ∧ check_duplicate (some e1536) (some [⟨"A", 1⟩]) "x" SIMILARITY_THRESHOLD
          = (if SIMILARITY_THRESHOLD < (1 : ℚ) then some ⟨"A", 1⟩ else none))
    ∧ process_and_store_lead ⟨true, some e1536, some e1536, some [⟨"A", 1⟩], true,
        true, false, none, none⟩ stA ⟨"H", "T", "http://h/1", "d", "s", "C"⟩
      = (false, stA) :=
  ⟨⟨by decide, C2_threshold_strict.1 e1536 "x" ⟨"A", 1⟩ [] (by decide) e1536_length⟩,
    C2_threshold_strict.2.1 _ stA ⟨"H", "T", "http://h/1", "d", "s", "C"⟩ ⟨"A", 1⟩
      check_dup_high⟩

/-- C3: at final commit time (`process_lead`), a relevance evaluation
with `relevance_score < 70` never reaches persistence — the run returns
`False` with both stores and the webhook log untouched — regardless of
the `is_relevant` flag; initial ingestion (`_fetch_news`) applies the
lower bar of 50: entries below 50 are skipped, while relevant, valuable
entries with score at least 50 produce a lead. -/
theorem C3_relevance_gate :
    (∀ (env : MainEnv) (st : Stores) (lead : Lead),
      env.relevance.relevance_score < 70 → process_lead env st lead = (false, st))
    ∧ (∀ (newId : String) (cleanGen : Option String) (rel : RelevanceEval)
        (csm : CsmEval) (company : String) (entry : FeedEntry),
      rel.relevance_score < 50 →
      fetch_news_entry newId cleanGen rel csm company entry = none)
    ∧ (∀ (newId : String) (cleanGen : Option String) (rel : RelevanceEval)
        (csm : CsmEval) (company : String) (entry : FeedEntry),
      rel.is_relevant = true → (50 : Int) ≤ rel.relevance_score →
      csm.is_valuable = true →
      fetch_news_entry newId cleanGen rel csm company entry =
        some ⟨newId, entry.title, entry.link,
          generate_clean_description cleanGen entry.description, "Google News",
          company⟩) :=
  ⟨relevance_gate_main, ingestion_relevance_gate, ingestion_pass⟩

theorem C3_relevance_gate_witness :
    process_lead ⟨none, none, ⟨true, 69, "r"⟩, ⟨true, ["funding_round"], [], "v"⟩,
        none, true, true, false, none, none⟩ st0 leadA = (false, st0)
    ∧ fetch_news_entry "id1" none ⟨true, 40, "r"⟩ ⟨true, [], [], "v"⟩ "Acme"
        ⟨"T", "D", "http://l/1"⟩ = none
    ∧ fetch_news_entry "id1" none ⟨true, 60, "r"⟩ ⟨true, [], [], "v"⟩ "Acme"
        ⟨"T", "D", "http://l/1"⟩ =
      some ⟨"id1", "T", "http://l/1", generate_clean_description none "D",
        "Google News", "Acme"⟩ :=
  ⟨C3_relevance_gate.1 _ st0 leadA (by decide),
    C3_relevance_gate.2.1 "id1" none _ _ "Acme" _ (by decide),
    C3_relevance_gate.2.2 "id1" none _ _ "Acme" _ rfl (by decide) rfl⟩

/-- C4: a value evaluation with `is_valuable = false` discards the
candidate at the value gate in both the ingestion path (`_fetch_news`)
and the final pipeline (`process_lead`), even when `value_type` contains
entries other than "none": the run performs no store write and no
notification. -/
theorem C4_value_gate :
    (∀ (env : MainEnv) (st : Stores) (lead : Lead),
      env.csm.is_valuable = false → process_lead env st lead = (false, st))
    ∧ (∀ (newId : String) (cleanGen : Option String) (rel : RelevanceEval)
        (csm : CsmEval) (company : String) (entry : FeedEntry),
      csm.is_valuable = false →
      fetch_news_entry newId cleanGen rel csm company entry = none) :=
  ⟨value_gate_main, ingestion_value_gate⟩

theorem C4_value_gate_witness :
    process_lead ⟨none, none, ⟨true, 90, "r"⟩,
        ⟨false, ["funding_round", "product_launch"], ["act"], "v"⟩, none, true, true,
        false, none, none⟩ st0 leadA = (false, st0)
    ∧ fetch_news_entry "id1" none ⟨true, 90, "r"⟩
        ⟨false, ["funding_round", "product_launch"], ["act"], "v"⟩ "Acme"
        ⟨"T", "D", "http://l/1"⟩ = none :=
  ⟨C4_value_gate.1 _ st0 leadA rfl, C4_value_gate.2 "id1" none _ _ "Acme" _ rfl⟩

/-- C5: submitting a lead whose url is already present never produces a
second document-store record: the run is rejected with the stores
untouched (by the exact-URL lookup, or — when that lookup fails open —
by the semantic check or the unique index on `url` failing the insert);
moreover "at most one record per url" is preserved by every run, so the
same url submitted twice leaves at most one stored record. -/
theorem C5_url_idempotent :
    (∀ (env : ScrapeEnv) (st : Stores) (lead : Lead),
      (∃ d ∈ st.docs, d.url = lead.url) →
      process_and_store_lead env st lead = (false, st))
    ∧ (∀ (env : ScrapeEnv) (st : Stores) (lead : Lead) (u : String),
      countUrl st.docs u ≤ 1 →
      countUrl (process_and_store_lead env st lead).snd.docs u ≤ 1)
    ∧ (∀ (env1 env2 : ScrapeEnv) (st : Stores) (lead1 lead2 : Lead),
      lead1.url = lead2.url → countUrl st.docs lead1.url = 0 →
      countUrl (process_and_store_lead env2
          (process_and_store_lead env1 st lead1).snd lead2).snd.docs lead1.url ≤ 1) := by
  refine ⟨resubmission_rejected, countUrl_le_one_preserved, ?_⟩
  intro env1 env2 st lead1 lead2 hurl h0
  exact countUrl_le_one_preserved env2 (process_and_store_lead env1 st lead1).snd
    lead2 lead1.url
    (countUrl_le_one_preserved env1 st lead1 lead1.url (by omega))

theorem C5_url_idempotent_witness :
    process_and_store_lead ⟨true, none, none, none, true, true, false, none, none⟩
        stA ⟨"A2", "Second submission", "http://x/1", "d", "s", "Acme"⟩
      = (false, stA)
    ∧ countUrl (process_and_store_lead
        ⟨true, none, none, none, true, true, false, none, none⟩
        (process_and_store_lead envA st0 leadA).snd
        ⟨"A2", "Second submission", "http://x/1", "d", "s", "Acme"⟩).snd.docs
        leadA.url ≤ 1 :=
  ⟨C5_url_idempotent.1 _ stA ⟨"A2", "Second submission", "http://x/1", "d", "s", "Acme"⟩
      ⟨docA, by simp [stA], rfl⟩,
    C5_url_idempotent.2.2 envA ⟨true, none, none, none, true, true, false, none, none⟩
      st0 leadA ⟨"A2", "Second submission", "http://x/1", "d", "s", "Acme"⟩
      rfl (by decide)⟩

/-- C6 counterexample: the claim says a failed summary generation returns
the CLEANED text; the source (`_generate_clean_description` line 319)
returns the ORIGINAL `content` argument instead.  On input
"hello   world" the cleaned text is "hello world" (whitespace collapsed),
but the failure path returns the raw input unchanged. -/
theorem C6_clean_counterexample :
    generate_clean_description none "hello   world" = "hello   world"
    ∧ clean_html_content (some "hello   world") "hello   world" = "hello world"
    ∧ ("hello   world" : String) ≠ "hello world" :=
  ⟨rfl, by decide, by decide⟩

/-- C6 (amended): for every raw content input, when the summary-generation
call fails, `_generate_clean_description` returns the ORIGINAL raw input
unchanged (un-cleaned and un-summarized) rather than raising, so
normalization never blocks downstream evaluation; on success it returns
the stripped generated summary. -/
theorem C6_failure_returns_raw :
    (∀ content : String, generate_clean_description none content = content)
    ∧ (∀ (s content : String), generate_clean_description (some s) content = pyStrip s) :=
  ⟨fun _ => rfl, fun _ _ => rfl⟩

/-- C7: the first two duplicate checks do fail open (an exception inside
`get_lead_by_url` or `check_duplicate` yields None, non-duplicate), but
the third does not: app.py defines no `logger`, so the `except` handler
of `check_duplicate_lead` raises NameError before reaching its
`return False` — here triggered by a pending-queue entry without a
`url` key. -/
theorem C7_fail_open_divergence :
    get_lead_by_url false st0 "http://x/1" = none
    ∧ check_duplicate none none "Acme expands" SIMILARITY_THRESHOLD = none
    ∧ check_duplicate_lead none none [none] "http://x/1"
        = Except.error PyExc.nameError :=
  ⟨rfl, by decide, rfl⟩

/-- C8: `generate_embedding` either returns a vector whose length equals
the configured dimension (1536) or raises; the returned vector is exactly
the service's vector, never truncated or padded; and a lead whose
embedding call yields a mismatched vector is rejected by both pipelines
with the stores untouched. -/
theorem C8_embedding_dimension :
    (∀ (apiResult : Option (List ℚ)) (text : String) (v : List ℚ),
      generate_embedding apiResult text = Except.ok v → v.length = VECTOR_DIMENSION)
    ∧ (∀ (a : List ℚ) (text : String) (v : List ℚ),
      generate_embedding (some a) text = Except.ok v → v = a)
    ∧ (∀ (env : ScrapeEnv) (st : Stores) (lead : Lead) (e : List ℚ),
      env.leadEmbed = some e → e.length ≠ VECTOR_DIMENSION →
      process_and_store_lead env st lead = (false, st))
    ∧ (∀ (env : MainEnv) (st : Stores) (lead : Lead) (e : List ℚ),
      env.leadEmbed = some e → e.length ≠ VECTOR_DIMENSION →
      process_lead env st lead = (false, st)) :=
  ⟨generate_embedding_dim, generate_embedding_exact,
    bad_embedding_rejected_scraper, bad_embedding_rejected_main⟩

theorem C8_embedding_dimension_witness :
    e1536.length = VECTOR_DIMENSION
    ∧ process_and_store_lead ⟨true, some [1], none, none, true, true, false, none,
        none⟩ st0 leadA = (false, st0)
    ∧ process_lead ⟨none, none, ⟨true, 80, "r"⟩, ⟨true, ["funding_round"], [], "v"⟩,
        some [1], true, true, false, none, none⟩ st0 leadA = (false, st0) :=
  ⟨C8_embedding_dimension.1 (some e1536) "x" e1536
      (generate_embedding_ok e1536 "x" (by decide) e1536_length),
    C8_embedding_dimension.2.2.1 _ st0 leadA [1] rfl (by decide),
    C8_embedding_dimension.2.2.2 _ st0 leadA [1] rfl (by decide)⟩

/-- C9: when the message-generation payload is missing any required field
(greeting, main_points, action_suggestions, urgency_level), the built
message is the deterministic fallback template, `notify` (with Slack
enabled) still returns a boolean reflecting the webhook delivery outcome
(true iff HTTP 200), the delivered payload is exactly that fallback
message, and the fallback contains the lead's company, title and url
verbatim, built only from the lead's own fields. -/
theorem C9_notification_fallback :
    ∀ (lead : Lead) (p : MsgPayload) (posts : List String) (w : Option Nat),
      (p.greeting = none ∨ p.main_points = none ∨ p.action_suggestions = none
        ∨ p.urgency_level = none) →
      generate_slack_message (some p) lead = generate_fallback_message lead
      ∧ (notify true (some p) w posts lead).snd
          = posts ++ [generate_fallback_message lead]
      ∧ ((notify true (some p) w posts lead).fst = true ↔ w = some 200)
      ∧ lead.company.data <:+: (generate_fallback_message lead).data
      ∧ lead.title.data <:+: (generate_fallback_message lead).data
      ∧ lead.url.data <:+: (generate_fallback_message lead).data := by
  intro lead p posts w h
  have hf := fallback_on_missing_field p lead h
  have hn := notify_enabled_eval (some p) w posts lead
  have hc := fallback_contains lead
  exact ⟨hf, by rw [hn.1, hf], hn.2, hc.1, hc.2.1, hc.2.2⟩

theorem C9_notification_fallback_witness :
    generate_slack_message (some ⟨none, none, none, none⟩) leadA
        = generate_fallback_message leadA
    ∧ (notify true (some ⟨none, none, none, none⟩) (some 200) [] leadA).snd
        = [] ++ [generate_fallback_message leadA]
    ∧ ((notify true (some ⟨none, none, none, none⟩) (some 200) [] leadA).fst = true
        ↔ (some 200 : Option Nat) = some 200)
    ∧ leadA.company.data <:+: (generate_fallback_message leadA).data
    ∧ leadA.title.data <:+: (generate_fallback_message leadA).data
    ∧ leadA.url.data <:+: (generate_fallback_message leadA).data :=
  C9_notification_fallback leadA ⟨none, none, none, none⟩ [] (some 200) (Or.inl rfl)

/-- C10: when Slack notifications are disabled, `notify` returns True for
every lead without attempting any webhook delivery (the post log is
unchanged), even though calling `send_slack_notification` directly in the
same state returns False. -/
theorem C10_disabled_notify :
    ∀ (genResult : Option MsgPayload) (w : Option Nat) (posts : List String)
      (lead : Lead),
      notify false genResult w posts lead = (true, posts)
      ∧ send_slack_notification false genResult w posts lead = (false, posts) :=
  fun _ _ _ _ => ⟨rfl, rfl⟩
